import Mathlib

/-!
Verification of `src/app/screens/channel_add_people/channel_add_people.tsx`
(mattermost-mobile, "add people to channel" screen).

The screen is a single React function component.  We embed its state and its
event handlers shallowly:

* React `useState`/`useRef` cells become fields of `ScreenState`.
* Each handler (`handleSelectProfile`, `onSearch`, `getProfiles`,
  `loadedProfiles`, `searchUsers`, `startAddPeople`, `clearSearch`,
  `handleRemoveProfile`) becomes a pure function on `ScreenState`,
  returning the new state together with the list of emitted side effects
  (network requests, alerts, navigation actions).
* Asynchronous calls are split at their `await` point: the request is an
  emitted `Effect`, and the continuation that React later runs is a
  separate completion function taking the network result as input.
* The JavaScript `setTimeout`/`clearTimeout` pair used for the debounced
  search is modelled by a multiset of pending timers `pendingTimers`
  (timer id, scheduled text) plus the ref cell `searchTimeoutId` holding
  the id of the most recently scheduled timer, exactly as the code holds a
  `NodeJS.Timeout` handle.  `clearTimeout` removes the referenced timer
  from the pending set; a timer that is never cleared stays pending until
  it fires.
* Constants imported from modules outside the provided source
  (`General.MAX_USERS_ADD_TO_CHANNEL`, `General.PROFILE_CHUNK_SIZE`) and
  ambient identifiers (server url, team id, channel id, current user id)
  are collected in a `Config` record; all theorems are parametric in it.

`UserProfile` is opaque to this component beyond `id` and `username`,
so the embedding keeps exactly those two fields.
-/

/-- A user profile; the component reads only `id` and `username`. -/
structure UserProfile where
  id : String
  username : String
deriving DecidableEq, Repr

/-- Ambient constants and props of the component.  `maxSelectedUsers` is
`General.MAX_USERS_ADD_TO_CHANNEL` and `profileChunkSize` is
`General.PROFILE_CHUNK_SIZE`; both are imported from a constants module
outside the provided source, so we keep them as parameters. -/
structure Config where
  serverUrl : String
  currentTeamId : String
  currentChannelId : String
  currentUserId : String
  groupConstrained : Bool
  maxSelectedUsers : Nat
  profileChunkSize : Nat
deriving DecidableEq, Repr

/-- Observable side effects the handlers can emit: the three remote calls,
the error alert, and the two navigation actions performed by `close`. -/
inductive Effect where
  | fetchProfilesNotInChannelReq (serverUrl teamId channelId : String)
      (groupConstrained : Bool) (page : Int) (chunkSize : Nat)
  | searchProfilesReq (serverUrl term teamId notInChannelId : String)
      (allowInactive : Bool)
  | addMembersToChannelReq (serverUrl channelId : String) (ids : List String)
  | alertError (message : String)
  | keyboardDismiss
  | popTopScreen
deriving DecidableEq, Repr

/-- The component's mutable state: every `useState` cell and every mutable
`useRef` cell of the source, plus the set of pending debounce timers. -/
structure ScreenState where
  profiles : List UserProfile
  searchResults : List UserProfile
  loading : Bool
  term : String
  startingAddPeople : Bool
  selectedIds : List (String × UserProfile)
  showToast : Bool
  /-- The `next` ref: the pagination "hasMore" flag, starts `true`. -/
  next : Bool
  /-- The `page` ref: last loaded page, starts `-1`. -/
  page : Int
  /-- The `mounted` ref: liveness flag, set on mount, cleared on unmount. -/
  mounted : Bool
  /-- Pending `setTimeout` timers for the debounced search: (id, text). -/
  pendingTimers : List (Nat × String)
  /-- The `searchTimeoutId` ref: handle of the most recently scheduled timer. -/
  searchTimeoutId : Option Nat
  /-- Fresh timer-id supply for `setTimeout`. -/
  nextTimerId : Nat
deriving DecidableEq, Repr

/-- State right after mount: all `useState` initial values, `next=true`,
`page=-1`, and `mounted=true` (set by the mount effect). -/
def initState : ScreenState :=
  { profiles := []
    searchResults := []
    loading := false
    term := ""
    startingAddPeople := false
    selectedIds := []
    showToast := false
    next := true
    page := -1
    mounted := true
    pendingTimers := []
    searchTimeoutId := none
    nextTimerId := 0 }

/-- Source `Object.keys(selectedIds).length`. -/
def selectedCount (s : ScreenState) : Nat := s.selectedIds.length

/-- Source `current[user.id]` lookup in the selection object. -/
def lookupSelected (l : List (String × UserProfile)) (id : String) :
    Option UserProfile :=
  (l.find? (fun e => e.1 == id)).map Prod.snd

/-- Source `removeProfileFromList`: copy the object and delete the key. -/
def removeProfileFromList (l : List (String × UserProfile)) (id : String) :
    List (String × UserProfile) :=
  l.filter (fun e => e.1 != id)

/-- The updater passed to `setSelectedIds` inside `handleSelectProfile`
(lines 182-200).  Returns the new selection and whether the cap rejection
branch ran (`setShowToast(true)`).  Note `wasSelected` in the source is
always `undefined` at its use sites because the selected case already
returned, so the `if (!wasSelected)` guards always pass. -/
def toggleSelection (cfg : Config) (user : UserProfile)
    (current : List (String × UserProfile)) :
    List (String × UserProfile) × Bool :=
  match lookupSelected current user.id with
  | some _ => (removeProfileFromList current user.id, false)
  | none =>
    if current.length ≥ cfg.maxSelectedUsers then
      (current, true)
    else
      (current ++ [(user.id, user)], false)

/-- Source `clearSearch`: `setLoading(false); setTerm(''); setSearchResults([])`.
It does not touch the pending debounce timer. -/
def clearSearchM (s : ScreenState) : ScreenState :=
  { s with loading := false, term := "", searchResults := [] }

/-- Source `handleSelectProfile`: clear the search state, then toggle the
user in the selection, raising the toast when the cap rejects an add. -/
def handleSelectProfileM (cfg : Config) (user : UserProfile)
    (s : ScreenState) : ScreenState :=
  let s1 := clearSearchM s
  let r := toggleSelection cfg user s1.selectedIds
  { s1 with selectedIds := r.1, showToast := r.2 || s1.showToast }

/-- Source `handleRemoveProfile`: unconditional removal from the tray. -/
def handleRemoveProfileM (id : String) (s : ScreenState) : ScreenState :=
  { s with selectedIds := removeProfileFromList s.selectedIds id }

/-- Source `onSearch` (lines 226-240): always `setLoading(true)`; for
non-empty text store the term, clear the previously referenced timer and
schedule a new one; for empty text just `clearSearch()` — the pending
timer is left untouched. -/
def onSearchM (text : String) (s : ScreenState) : ScreenState :=
  let s0 := { s with loading := true }
  if text = "" then
    clearSearchM s0
  else
    let s1 := { s0 with term := text }
    let pruned :=
      match s1.searchTimeoutId with
      | some tid => s1.pendingTimers.filter (fun x => x.1 != tid)
      | none => s1.pendingTimers
    { s1 with
        pendingTimers := pruned ++ [(s1.nextTimerId, text)]
        searchTimeoutId := some s1.nextTimerId
        nextTimerId := s1.nextTimerId + 1 }

/-- Source `searchUsers` up to its `await`: lowercase the term, set
loading, and issue the `searchProfiles` request. -/
def searchStartM (cfg : Config) (searchTerm : String) (s : ScreenState) :
    ScreenState × List Effect :=
  ({ s with loading := true },
   [Effect.searchProfilesReq cfg.serverUrl searchTerm.toLower
      cfg.currentTeamId cfg.currentChannelId true])

/-- Continuation of `searchUsers` after its `await` (lines 213-219):
`setSearchResults(results.data ?? []); setLoading(false)`.  There is no
`mounted` check in this callback. -/
def searchCompleteM (data : Option (List UserProfile)) (s : ScreenState) :
    ScreenState :=
  { s with searchResults := data.getD [], loading := false }

/-- A scheduled debounce timer fires: if it is still pending, remove it
and run `searchUsers` with the text captured at scheduling time. -/
def timerFireM (cfg : Config) (tid : Nat) (s : ScreenState) :
    ScreenState × List Effect :=
  match s.pendingTimers.find? (fun x => x.1 == tid) with
  | some t =>
      searchStartM cfg t.2
        { s with pendingTimers := s.pendingTimers.filter (fun x => x.1 != tid) }
  | none => (s, [])

/-- Source `getProfiles` (the thunk inside the `debounce` wrapper,
lines 127-135): guarded by `next.current && !loading && !term &&
mounted.current`; on pass, set loading and request the chunk at
`page.current + 1` of size `PROFILE_CHUNK_SIZE`.  The 100ms `debounce`
wrapper only coalesces rapid repeat calls in time and is not modelled. -/
def getProfilesM (cfg : Config) (s : ScreenState) :
    ScreenState × List Effect :=
  if s.next = true ∧ s.loading = false ∧ s.term = "" ∧ s.mounted = true then
    ({ s with loading := true },
     [Effect.fetchProfilesNotInChannelReq cfg.serverUrl cfg.currentTeamId
        cfg.currentChannelId cfg.groupConstrained (s.page + 1)
        cfg.profileChunkSize])
  else
    (s, [])

/-- Source `loadedProfiles` (lines 114-124): the pagination completion
callback.  Guarded by `mounted.current`; an empty chunk clears `next`;
`page` is incremented and the users appended. -/
def loadedProfilesM (users : List UserProfile) (s : ScreenState) :
    ScreenState :=
  if s.mounted then
    { s with
        next := if users.isEmpty then false else s.next
        page := s.page + 1
        loading := false
        profiles := s.profiles ++ users }
  else s

/-- Fallback text of `messages.error`, used by `alertErrorWithFallback`
when the mutation error carries no displayable reason. -/
def errorFallbackMessage : String :=
  "We could not add those users to the channel. Please check your connection and try again."

/-- Modelled from the spec: `alertErrorWithFallback` (imported from a
utils module outside the provided source) surfaces one user-visible alert
using the error's displayable reason, "falling back to a generic message
if the error carries no displayable reason" (spec section 4.4).  The error
is an `Option String`: its displayable reason, when it has one. -/
def alertErrorWithFallback (reason : Option String) : Effect :=
  Effect.alertError (reason.getD errorFallbackMessage)

/-- The ids a submission uses: the keys of the optional argument, else the
keys of the current selection (`startAddPeople` line 165). -/
def idsToUse (selectedId : Option (List String)) (s : ScreenState) :
    List String :=
  match selectedId with
  | some ids => ids
  | none => s.selectedIds.map Prod.fst

/-- Source `startAddPeople` (lines 158-178) fused with `addPeopleToChannel`
(lines 142-150), atomised over the awaited mutation result.
`apiResult = none` means the call succeeded; `apiResult = some reason`
means it returned an error carrying the optional displayable `reason`.
On success the screen is closed (`close` = keyboard dismiss + pop); on
failure or empty selection the submitting flag is reset. -/
def startAddPeopleM (cfg : Config) (selectedId : Option (List String))
    (apiResult : Option (Option String)) (s : ScreenState) :
    ScreenState × List Effect :=
  if s.startingAddPeople then
    (s, [])
  else
    let ids := idsToUse selectedId s
    if ids.isEmpty then
      ({ s with startingAddPeople := false }, [])
    else
      match apiResult with
      | some reason =>
          ({ s with startingAddPeople := false },
           [Effect.addMembersToChannelReq cfg.serverUrl cfg.currentChannelId ids,
            alertErrorWithFallback reason])
      | none =>
          ({ s with startingAddPeople := true },
           [Effect.addMembersToChannelReq cfg.serverUrl cfg.currentChannelId ids,
            Effect.keyboardDismiss, Effect.popTopScreen])

/-- The `useEffect` at lines 250-252: resynchronise `showToast` with the
cap comparison whenever the comparison's value changes. -/
def toastSyncM (cfg : Config) (s : ScreenState) : ScreenState :=
  { s with showToast := decide (selectedCount s ≥ cfg.maxSelectedUsers) }

/-- Unmount: the cleanup of the mount effect clears the liveness flag. -/
def unmountM (s : ScreenState) : ScreenState := { s with mounted := false }

/-- Whether the first character list is a prefix of the second. -/
def charsPrefix : List Char → List Char → Bool
  | [], _ => true
  | _ :: _, [] => false
  | a :: as, b :: bs => a == b && charsPrefix as bs

/-- JavaScript `s.startsWith(pre)`: `pre` is a prefix of `s`, compared
character by character. -/
def strStartsWith (s pre : String) : Bool := charsPrefix pre.data s.data

/-- Modelled from the spec: `filterProfilesMatchingTerm` (imported from a
utils module outside the provided source).  Per spec section 4.2 the
remainder is "filtered by a general substring/term match", and the worked
example in section 8 excludes username "ball" for term "al", so the match
is on a prefix of the username — the only matching field this component's
profiles carry. -/
def filterProfilesMatchingTerm (profiles : List UserProfile)
    (term : String) : List UserProfile :=
  profiles.filter (fun p => strStartsWith p.username term)

/-- The `filterByTerm` predicate of the `data` memo (lines 261-272) without
its side effect: profiles the current-user rule keeps. -/
def keepsProfile (selCount : Nat) (currentUserId : String)
    (p : UserProfile) : Bool :=
  !(decide (selCount > 0) && (p.id == currentUserId))

/-- Whether `filterByTerm` promotes `p` into `exactMatches` (line 266):
`p.username === term || p.username.startsWith(term)`. -/
def isPromoted (term : String) (p : UserProfile) : Bool :=
  (p.username == term) || strStartsWith p.username term

/-- The `data` memo (lines 258-278): when a term is active, run the
matching-term filter, then split its output into the promoted exact/prefix
matches and the remainder (the source does this with a side-effecting
`filter` pushing into `exactMatches`; here it is two filters), excluding
the current user once a selection exists; the promoted list is prepended.
Without a term, the paginated profiles are shown. -/
def dataList (term : String) (searchResults profiles : List UserProfile)
    (selCount : Nat) (currentUserId : String) : List UserProfile :=
  if term ≠ "" then
    let base := filterProfilesMatchingTerm searchResults term
    let exactMatches :=
      base.filter (fun p => keepsProfile selCount currentUserId p &&
        isPromoted term p)
    let results :=
      base.filter (fun p => keepsProfile selCount currentUserId p &&
        !isPromoted term p)
    exactMatches ++ results
  else
    profiles

/-- The UI events that can reach the handlers, each carrying the network
result its completion continuation would receive. -/
inductive Event where
  | selectProfile (user : UserProfile)
  | removeProfile (id : String)
  | clearSearchPressed
  | searchTextChanged (text : String)
  | searchTimerFired (timerId : Nat)
  | searchSubmitted
  | searchCompleted (data : Option (List UserProfile))
  | fetchMore
  | fetchCompleted (users : List UserProfile)
  | submitPressed (selectedId : Option (List String))
      (apiResult : Option (Option String))
  | toastSynced
  | unmounted
deriving DecidableEq, Repr

/-- One step of the screen's event loop: dispatch an event to its handler. -/
def step (cfg : Config) (e : Event) (s : ScreenState) :
    ScreenState × List Effect :=
  match e with
  | Event.selectProfile user => (handleSelectProfileM cfg user s, [])
  | Event.removeProfile id => (handleRemoveProfileM id s, [])
  | Event.clearSearchPressed => (clearSearchM s, [])
  | Event.searchTextChanged text => (onSearchM text s, [])
  | Event.searchTimerFired tid => timerFireM cfg tid s
  | Event.searchSubmitted => searchStartM cfg s.term s
  | Event.searchCompleted data => (searchCompleteM data s, [])
  | Event.fetchMore => getProfilesM cfg s
  | Event.fetchCompleted users => (loadedProfilesM users s, [])
  | Event.submitPressed sel res => startAddPeopleM cfg sel res s
  | Event.toastSynced => (toastSyncM cfg s, [])
  | Event.unmounted => (unmountM s, [])

/-- Run a sequence of events, accumulating all emitted effects. -/
def runEvents (cfg : Config) : List Event → ScreenState →
    ScreenState × List Effect
  | [], s => (s, [])
  | e :: evs, s =>
      let r := step cfg e s
      let r' := runEvents cfg evs r.1
      (r'.1, r.2 ++ r'.2)

/-- Apply a sequence of selection toggles. -/
def applyToggles (cfg : Config) (users : List UserProfile)
    (s : ScreenState) : ScreenState :=
  users.foldl (fun t u => handleSelectProfileM cfg u t) s

/-- Number of pagination network requests in an effect list. -/
def countFetches (effs : List Effect) : Nat :=
  effs.countP (fun e =>
    match e with
    | Effect.fetchProfilesNotInChannelReq _ _ _ _ _ _ => true
    | _ => false)

/-- Number of user-visible alerts in an effect list. -/
def countAlerts (effs : List Effect) : Nat :=
  effs.countP (fun e =>
    match e with
    | Effect.alertError _ => true
    | _ => false)

/-- Number of screen-close (pop) actions in an effect list. -/
def countPops (effs : List Effect) : Nat :=
  effs.countP (fun e =>
    match e with
    | Effect.popTopScreen => true
    | _ => false)

/-- The debounce-timer discipline the code maintains: either no timer is
pending, or exactly one is and `searchTimeoutId` references it. -/
def timerInvB (s : ScreenState) : Bool :=
  match s.pendingTimers with
  | [] => true
  | [t] => s.searchTimeoutId == some t.1
  | _ => false

/-! Concrete fixtures used by witnesses and counterexamples. -/

/-- A sample configuration with a cap of two selected users. -/
def cfgW : Config :=
  { serverUrl := "srv", currentTeamId := "team", currentChannelId := "chan",
    currentUserId := "me", groupConstrained := false,
    maxSelectedUsers := 2, profileChunkSize := 3 }

def uA : UserProfile := ⟨"ua", "ann"⟩
def uB : UserProfile := ⟨"ub", "bob"⟩
def uC : UserProfile := ⟨"uc", "carol"⟩

def albert : UserProfile := ⟨"u_albert", "albert"⟩
def aliceU : UserProfile := ⟨"u_alice", "alice"⟩
def ballU : UserProfile := ⟨"u_ball", "ball"⟩

/-- Two profiles sharing an id but differing in the other field. -/
def pOld : UserProfile := ⟨"u1", "old name"⟩
def pNew : UserProfile := ⟨"u1", "new name"⟩

/-- A state whose selection already holds `cfgW.maxSelectedUsers` users. -/
def sCapW : ScreenState :=
  { initState with selectedIds := [("ua", uA), ("ub", uB)] }

/-- A state with one pending debounce timer scheduled for text "a". -/
def sPend : ScreenState :=
  { initState with pendingTimers := [(0, "a")], searchTimeoutId := some 0,
                   nextTimerId := 1 }

/-- A state after the component has been unmounted. -/
def sUnmounted : ScreenState := { initState with mounted := false }

/-- A state with a pagination fetch in flight. -/
def sLoadingW : ScreenState := { initState with loading := true }

/-- A state whose pagination is exhausted (`next = false`). -/
def sNextFalse : ScreenState := { initState with next := false }

/-- A state with `pOld` selected. -/
def sSelOld : ScreenState := { initState with selectedIds := [("u1", pOld)] }

/-- A state with `uA` selected. -/
def sSelA : ScreenState := { initState with selectedIds := [("ua", uA)] }

/-! ### Helper lemmas -/

theorem handleSelect_selectedIds (cfg : Config) (u : UserProfile)
    (s : ScreenState) :
    (handleSelectProfileM cfg u s).selectedIds =
      (toggleSelection cfg u s.selectedIds).1 := rfl

theorem handleSelect_showToast (cfg : Config) (u : UserProfile)
    (s : ScreenState) :
    (handleSelectProfileM cfg u s).showToast =
      ((toggleSelection cfg u s.selectedIds).2 || s.showToast) := rfl

theorem toggleSelection_rejected (cfg : Config) (u : UserProfile)
    {sel : List (String × UserProfile)}
    (hnone : lookupSelected sel u.id = none)
    (hcap : sel.length ≥ cfg.maxSelectedUsers) :
    toggleSelection cfg u sel = (sel, true) := by
  unfold toggleSelection
  rw [hnone]
  simp [hcap]

theorem toggleSelection_length_le (cfg : Config) (u : UserProfile)
    {sel : List (String × UserProfile)}
    (h : sel.length ≤ cfg.maxSelectedUsers) :
    (toggleSelection cfg u sel).1.length ≤ cfg.maxSelectedUsers := by
  unfold toggleSelection removeProfileFromList
  split
  · exact le_trans (List.length_filter_le _ _) h
  · split
    · exact h
    · rename_i hc
      simp only [List.length_append, List.length_cons, List.length_nil]
      omega

theorem applyToggles_length_le (cfg : Config) (users : List UserProfile) :
    ∀ s : ScreenState, selectedCount s ≤ cfg.maxSelectedUsers →
      selectedCount (applyToggles cfg users s) ≤ cfg.maxSelectedUsers := by
  induction users with
  | nil => intro s h; exact h
  | cons u us ih =>
    intro s h
    have hstep : selectedCount (handleSelectProfileM cfg u s) ≤
        cfg.maxSelectedUsers := by
      unfold selectedCount
      rw [handleSelect_selectedIds]
      exact toggleSelection_length_le cfg u h
    exact ih _ hstep

/-! ### C1 -/

/-- C1: for every sequence of selection toggles starting from the empty
selection, the selection set's size never exceeds `MAX_SELECTED_USERS`;
and a toggle of a not-yet-selected user performed when the size is already
at the cap leaves the selection set unchanged and raises the limit
notification (`showToast` becomes `true`). -/
theorem c1_selection_cap (cfg : Config) (users : List UserProfile) :
    selectedCount (applyToggles cfg users initState) ≤ cfg.maxSelectedUsers ∧
    ∀ (s : ScreenState) (u : UserProfile),
      lookupSelected s.selectedIds u.id = none →
      selectedCount s ≥ cfg.maxSelectedUsers →
      (handleSelectProfileM cfg u s).selectedIds = s.selectedIds ∧
      (handleSelectProfileM cfg u s).showToast = true := by
  constructor
  · exact applyToggles_length_le cfg users initState (by simp [selectedCount, initState])
  · intro s u hnone hcap
    simp only [selectedCount] at hcap
    have hrej := toggleSelection_rejected cfg u hnone hcap
    constructor
    · rw [handleSelect_selectedIds, hrej]
    · rw [handleSelect_showToast, hrej]
      simp

/-- Witness for C1 at the concrete cap 2: toggling three distinct users
keeps the size at 2, and a toggle at the cap is rejected with the toast. -/
theorem c1_selection_cap_witness :
    (selectedCount (applyToggles cfgW [uA, uB, uC] initState) ≤
        cfgW.maxSelectedUsers) ∧
    ((handleSelectProfileM cfgW uC sCapW).selectedIds = sCapW.selectedIds ∧
      (handleSelectProfileM cfgW uC sCapW).showToast = true) :=
  ⟨(c1_selection_cap cfgW [uA, uB, uC]).1,
   (c1_selection_cap cfgW []).2 sCapW uC (by decide) (by decide)⟩

/-! ### C10 -/

/-- C10: every invocation of the selection toggle (`handleSelectProfile`)
clears the search state — the term becomes empty, the search results
become the empty list, and the loading flag becomes `false` — regardless
of whether the toggle adds, removes, or is rejected at the cap. -/
theorem c10_toggle_clears_search (cfg : Config) (u : UserProfile)
    (s : ScreenState) :
    (handleSelectProfileM cfg u s).term = "" ∧
    (handleSelectProfileM cfg u s).searchResults = [] ∧
    (handleSelectProfileM cfg u s).loading = false :=
  ⟨rfl, rfl, rfl⟩

/-! ### C2 -/

theorem timerInvB_length_le_one {s : ScreenState}
    (h : timerInvB s = true) : s.pendingTimers.length ≤ 1 := by
  unfold timerInvB at h
  cases hp : s.pendingTimers with
  | nil => simp
  | cons t rest =>
    cases rest with
    | nil => simp
    | cons t' rest' => rw [hp] at h; simp at h

/-- C2 counterexample: in a state with one pending delayed search (for
text "a"), a keystroke that empties the search box does not cancel that
timer — it is still pending afterwards — contradicting the claim that the
previously scheduled timer is canceled and replaced on every keystroke,
"in particular also when the new text is empty". -/
theorem c2_debounce_cex :
    sPend.pendingTimers = [(0, "a")] ∧
    (onSearchM "" sPend).pendingTimers = [(0, "a")] := by decide

/-- C2 (amended): on every keystroke with non-empty text the previously
scheduled delayed-search timer is canceled and replaced by a single fresh
timer for the new text; a keystroke with empty text leaves any pending
timer untouched (it only clears the search state); in all cases, under
the code's timer discipline, at most one delayed search request remains
pending. -/
theorem c2_debounce_cancel (text : String) (s : ScreenState)
    (hinv : timerInvB s = true) :
    (text ≠ "" →
      (onSearchM text s).pendingTimers = [(s.nextTimerId, text)] ∧
      (onSearchM text s).searchTimeoutId = some s.nextTimerId) ∧
    (text = "" → (onSearchM text s).pendingTimers = s.pendingTimers) ∧
    (onSearchM text s).pendingTimers.length ≤ 1 ∧
    timerInvB (onSearchM text s) = true := by
  by_cases ht : text = ""
  · subst ht
    refine ⟨by simp, fun _ => rfl, ?_, ?_⟩
    · exact timerInvB_length_le_one hinv
    · exact hinv
  · have hpruned :
        (match s.searchTimeoutId with
         | some tid => s.pendingTimers.filter (fun x => x.1 != tid)
         | none => s.pendingTimers) = [] := by
      unfold timerInvB at hinv
      cases hp : s.pendingTimers with
      | nil => cases s.searchTimeoutId <;> simp
      | cons t rest =>
        cases rest with
        | nil =>
          rw [hp] at hinv
          simp only [beq_iff_eq] at hinv
          rw [hinv]
          simp
        | cons t' rest' => rw [hp] at hinv; simp at hinv
    have hres : (onSearchM text s).pendingTimers = [(s.nextTimerId, text)] ∧
        (onSearchM text s).searchTimeoutId = some s.nextTimerId := by
      unfold onSearchM
      rw [if_neg ht]
      simp only []
      constructor
      · show (match s.searchTimeoutId with
              | some tid => s.pendingTimers.filter (fun x => x.1 != tid)
              | none => s.pendingTimers) ++ [(s.nextTimerId, text)] =
            [(s.nextTimerId, text)]
        rw [hpruned]
        rfl
      · trivial
    refine ⟨fun _ => hres, fun h => absurd h ht, ?_, ?_⟩
    · rw [hres.1]; simp
    · unfold timerInvB
      rw [hres.1, hres.2]
      simp

/-- Witness for C2 (amended) at text "ab" in a state with one pending
timer for "a": the old timer is replaced by a single timer for "ab". -/
theorem c2_debounce_cancel_witness :
    (("ab" : String) ≠ "" →
      (onSearchM "ab" sPend).pendingTimers = [(sPend.nextTimerId, "ab")] ∧
      (onSearchM "ab" sPend).searchTimeoutId = some sPend.nextTimerId) ∧
    (("ab" : String) = "" →
      (onSearchM "ab" sPend).pendingTimers = sPend.pendingTimers) ∧
    (onSearchM "ab" sPend).pendingTimers.length ≤ 1 ∧
    timerInvB (onSearchM "ab" sPend) = true :=
  c2_debounce_cancel "ab" sPend (by decide)

/-! ### C3 -/

/-- C3 counterexample: the search completion callback performs its state
update even when the response arrives after unmount — in the unmounted
state it overwrites `searchResults`, so it is not a no-op, contradicting
the claim that every network-completion callback of the screen checks
the liveness flag and discards late responses. -/
theorem c3_liveness_cex :
    sUnmounted.mounted = false ∧
    searchCompleteM (some [uA]) sUnmounted ≠ sUnmounted := by decide

/-- C3 (amended): the pagination completion callback (`loadedProfiles`)
checks the liveness flag and performs no state update after unmount; the
search completion callback does not check it — it always stores the
response and clears the loading flag, mounted or not. -/
theorem c3_stale_response_guard :
    (∀ (users : List UserProfile) (s : ScreenState),
      s.mounted = false → loadedProfilesM users s = s) ∧
    (∀ (data : Option (List UserProfile)) (s : ScreenState),
      (searchCompleteM data s).searchResults = data.getD [] ∧
      (searchCompleteM data s).loading = false) := by
  constructor
  · intro users s h
    simp [loadedProfilesM, h]
  · intro data s
    exact ⟨rfl, rfl⟩

/-- Witness for C3 (amended): a pagination response is dropped in the
unmounted state, while a search response is stored even there. -/
theorem c3_stale_response_guard_witness :
    loadedProfilesM [uA] sUnmounted = sUnmounted ∧
    ((searchCompleteM (some [uA]) sUnmounted).searchResults =
        (some [uA]).getD [] ∧
      (searchCompleteM (some [uA]) sUnmounted).loading = false) :=
  ⟨c3_stale_response_guard.1 [uA] sUnmounted (by decide),
   c3_stale_response_guard.2 (some [uA]) sUnmounted⟩

/-! ### C6, C7, C8 -/

theorem startingAddPeople_eta {s : ScreenState}
    (h : s.startingAddPeople = false) :
    { s with startingAddPeople := false } = s := by
  cases s
  simp_all

/-- C6: submitting with zero selected ids calls no remote API, shows no
alert, emits no navigation action (the screen stays open), and leaves the
submission flag disabled (`false`), so the control is re-enabled. -/
theorem c6_empty_submission (cfg : Config) (sel : Option (List String))
    (apiResult : Option (Option String)) (s : ScreenState)
    (h1 : s.startingAddPeople = false) (h2 : idsToUse sel s = []) :
    startAddPeopleM cfg sel apiResult s = (s, []) := by
  simp [startAddPeopleM, h1, h2, startingAddPeople_eta h1]

/-- Witness for C6: an empty selection and no override id list. -/
theorem c6_empty_submission_witness :
    initState.startingAddPeople = false ∧
    idsToUse none initState = [] ∧
    startAddPeopleM cfgW none none initState = (initState, []) :=
  ⟨by decide, by decide,
   c6_empty_submission cfgW none none initState (by decide) (by decide)⟩

/-- C7: when the membership mutation returns an error, the handler emits
exactly one user-visible alert (carrying the error's displayable reason,
or the generic fallback when there is none), never closes the screen
(no pop action), and resets the submitting flag so the user may retry. -/
theorem c7_failed_submission (cfg : Config) (sel : Option (List String))
    (reason : Option String) (s : ScreenState)
    (h1 : s.startingAddPeople = false) (h2 : idsToUse sel s ≠ []) :
    startAddPeopleM cfg sel (some reason) s =
      (s, [Effect.addMembersToChannelReq cfg.serverUrl cfg.currentChannelId
             (idsToUse sel s),
           Effect.alertError (reason.getD errorFallbackMessage)]) ∧
    countAlerts (startAddPeopleM cfg sel (some reason) s).2 = 1 ∧
    countPops (startAddPeopleM cfg sel (some reason) s).2 = 0 ∧
    (startAddPeopleM cfg sel (some reason) s).1.startingAddPeople = false := by
  have hmain : startAddPeopleM cfg sel (some reason) s =
      (s, [Effect.addMembersToChannelReq cfg.serverUrl cfg.currentChannelId
             (idsToUse sel s),
           Effect.alertError (reason.getD errorFallbackMessage)]) := by
    simp [startAddPeopleM, h1, h2, alertErrorWithFallback,
      startingAddPeople_eta h1]
  refine ⟨hmain, ?_, ?_, ?_⟩ <;> rw [hmain]
  · rfl
  · rfl
  · exact h1

/-- Witness for C7: one user selected, mutation fails with reason "boom". -/
theorem c7_failed_submission_witness :
    sSelA.startingAddPeople = false ∧
    idsToUse none sSelA ≠ [] ∧
    (startAddPeopleM cfgW none (some (some "boom")) sSelA =
      (sSelA, [Effect.addMembersToChannelReq cfgW.serverUrl
                 cfgW.currentChannelId (idsToUse none sSelA),
               Effect.alertError ((some "boom").getD errorFallbackMessage)]) ∧
     countAlerts (startAddPeopleM cfgW none (some (some "boom")) sSelA).2 = 1 ∧
     countPops (startAddPeopleM cfgW none (some (some "boom")) sSelA).2 = 0 ∧
     (startAddPeopleM cfgW none
        (some (some "boom")) sSelA).1.startingAddPeople = false) :=
  ⟨by decide, by decide,
   c7_failed_submission cfgW none (some "boom") sSelA (by decide) (by decide)⟩

/-- C8: when the membership mutation succeeds, the handler emits exactly
one screen-close action — the keyboard is dismissed and the top screen is
popped once — with no alert, and the submitting flag is not re-enabled
(it stays `true`, keeping the full-screen spinner until the screen is
gone). -/
theorem c8_successful_submission (cfg : Config) (sel : Option (List String))
    (s : ScreenState)
    (h1 : s.startingAddPeople = false) (h2 : idsToUse sel s ≠ []) :
    startAddPeopleM cfg sel none s =
      ({ s with startingAddPeople := true },
       [Effect.addMembersToChannelReq cfg.serverUrl cfg.currentChannelId
          (idsToUse sel s),
        Effect.keyboardDismiss, Effect.popTopScreen]) ∧
    countPops (startAddPeopleM cfg sel none s).2 = 1 ∧
    countAlerts (startAddPeopleM cfg sel none s).2 = 0 ∧
    (startAddPeopleM cfg sel none s).1.startingAddPeople = true := by
  have hmain : startAddPeopleM cfg sel none s =
      ({ s with startingAddPeople := true },
       [Effect.addMembersToChannelReq cfg.serverUrl cfg.currentChannelId
          (idsToUse sel s),
        Effect.keyboardDismiss, Effect.popTopScreen]) := by
    simp [startAddPeopleM, h1, h2]
  refine ⟨hmain, ?_, ?_, ?_⟩ <;> rw [hmain] <;> rfl

/-- Witness for C8: one user selected, the mutation succeeds. -/
theorem c8_successful_submission_witness :
    sSelA.startingAddPeople = false ∧
    idsToUse none sSelA ≠ [] ∧
    (startAddPeopleM cfgW none none sSelA =
      ({ sSelA with startingAddPeople := true },
       [Effect.addMembersToChannelReq cfgW.serverUrl cfgW.currentChannelId
          (idsToUse none sSelA),
        Effect.keyboardDismiss, Effect.popTopScreen]) ∧
     countPops (startAddPeopleM cfgW none none sSelA).2 = 1 ∧
     countAlerts (startAddPeopleM cfgW none none sSelA).2 = 0 ∧
     (startAddPeopleM cfgW none none sSelA).1.startingAddPeople = true) :=
  ⟨by decide, by decide,
   c8_successful_submission cfgW none sSelA (by decide) (by decide)⟩

/-! ### C4 -/

theorem step_no_fetch_of_next_false (cfg : Config) (e : Event)
    (s : ScreenState) (h : s.next = false) :
    (step cfg e s).1.next = false ∧ countFetches (step cfg e s).2 = 0 := by
  cases e with
  | selectProfile u => exact ⟨h, rfl⟩
  | removeProfile id => exact ⟨h, rfl⟩
  | clearSearchPressed => exact ⟨h, rfl⟩
  | searchTextChanged text =>
    by_cases ht : text = "" <;>
      simp [step, onSearchM, clearSearchM, ht, countFetches, h]
  | searchTimerFired tid =>
    cases hf : s.pendingTimers.find? (fun x => x.1 == tid) <;>
      simp [step, timerFireM, searchStartM, hf, countFetches, h]
  | searchSubmitted => exact ⟨h, rfl⟩
  | searchCompleted data => exact ⟨h, rfl⟩
  | fetchMore => simp [step, getProfilesM, h, countFetches]
  | fetchCompleted users =>
    by_cases hm : s.mounted = true <;> cases users <;>
      simp [step, loadedProfilesM, hm, h, countFetches]
  | submitPressed sel res =>
    show (startAddPeopleM cfg sel res s).1.next = false ∧
      countFetches (startAddPeopleM cfg sel res s).2 = 0
    unfold startAddPeopleM
    split
    · exact ⟨h, rfl⟩
    · cases res <;> dsimp only <;> split <;> exact ⟨h, rfl⟩
  | toastSynced => exact ⟨h, rfl⟩
  | unmounted => exact ⟨h, rfl⟩

theorem runEvents_no_fetch (cfg : Config) (evs : List Event) :
    ∀ s : ScreenState, s.next = false →
      (runEvents cfg evs s).1.next = false ∧
      countFetches (runEvents cfg evs s).2 = 0 := by
  induction evs with
  | nil => intro s h; exact ⟨h, rfl⟩
  | cons e evs ih =>
    intro s h
    have h1 := step_no_fetch_of_next_false cfg e s h
    have h2 := ih (step cfg e s).1 h1.1
    refine ⟨h2.1, ?_⟩
    show countFetches
      ((step cfg e s).2 ++ (runEvents cfg evs (step cfg e s).1).2) = 0
    unfold countFetches at *
    rw [List.countP_append, h1.2, h2.2]

/-- C4 counterexample: in an unmounted state none of the claim's three
no-op conditions holds (`next = true`, not loading, no term), yet
`getProfiles` issues no request — the source guard also requires
`mounted.current`, a condition the claim omits. -/
theorem c4_fetch_more_cex :
    sUnmounted.next = true ∧ sUnmounted.loading = false ∧
    sUnmounted.term = "" ∧
    getProfilesM cfgW sUnmounted = (sUnmounted, []) := by decide

/-- C4 (amended): `fetchMore` (`getProfiles`) is a no-op when a fetch is
already in flight, when a search term is active, when `hasMore` (`next`)
is false, or when the component is unmounted; otherwise it requests the
chunk starting at `page+1` with the fixed chunk size and sets loading.
The completion (`loadedProfiles`, while mounted) appends the returned
users to the displayed profile list, increments `page`, and clears
`hasMore` if the returned chunk is empty; consequently, once `hasMore` is
cleared, no sequence of further events ever issues another pagination
request. -/
theorem c4_pagination_contract :
    (∀ (cfg : Config) (s : ScreenState),
      s.loading = true ∨ s.term ≠ "" ∨ s.next = false ∨ s.mounted = false →
      getProfilesM cfg s = (s, [])) ∧
    (∀ (cfg : Config) (s : ScreenState),
      s.next = true → s.loading = false → s.term = "" → s.mounted = true →
      getProfilesM cfg s =
        ({ s with loading := true },
         [Effect.fetchProfilesNotInChannelReq cfg.serverUrl cfg.currentTeamId
            cfg.currentChannelId cfg.groupConstrained (s.page + 1)
            cfg.profileChunkSize])) ∧
    (∀ (users : List UserProfile) (s : ScreenState), s.mounted = true →
      loadedProfilesM users s =
        { s with
            next := if users.isEmpty then false else s.next
            page := s.page + 1
            loading := false
            profiles := s.profiles ++ users }) ∧
    (∀ (cfg : Config) (evs : List Event) (s : ScreenState),
      s.next = false → countFetches (runEvents cfg evs s).2 = 0) := by
  refine ⟨?_, ?_, ?_, ?_⟩
  · intro cfg s h
    unfold getProfilesM
    rcases h with h | h | h | h <;>
      · rw [if_neg]
        simp [h]
  · intro cfg s h1 h2 h3 h4
    simp [getProfilesM, h1, h2, h3, h4]
  · intro users s hm
    simp [loadedProfilesM, hm]
  · intro cfg evs s h
    exact (runEvents_no_fetch cfg evs s h).2

/-- Witness for C4 (amended): all four parts at concrete states — a
loading state no-ops, the freshly mounted state requests page 0, an empty
completion chunk clears `hasMore`, and with `hasMore` cleared a further
`fetchMore` event produces zero pagination requests. -/
theorem c4_pagination_contract_witness :
    getProfilesM cfgW sLoadingW = (sLoadingW, []) ∧
    getProfilesM cfgW initState =
      ({ initState with loading := true },
       [Effect.fetchProfilesNotInChannelReq cfgW.serverUrl cfgW.currentTeamId
          cfgW.currentChannelId cfgW.groupConstrained (initState.page + 1)
          cfgW.profileChunkSize]) ∧
    loadedProfilesM [] initState =
      { initState with
          next := if ([] : List UserProfile).isEmpty then false
                  else initState.next
          page := initState.page + 1
          loading := false
          profiles := initState.profiles ++ [] } ∧
    countFetches (runEvents cfgW [Event.fetchMore] sNextFalse).2 = 0 :=
  ⟨c4_pagination_contract.1 cfgW sLoadingW (Or.inl (by decide)),
   c4_pagination_contract.2.1 cfgW initState (by decide) (by decide)
     (by decide) (by decide),
   c4_pagination_contract.2.2.1 [] initState (by decide),
   c4_pagination_contract.2.2.2 cfgW [Event.fetchMore] sNextFalse (by decide)⟩

/-! ### C5 -/

/-- C5: for search term "al" and raw results `[albert, alice, ball]` with
an empty selection, the displayed list is exactly `[albert, alice]` (both
promoted as prefix matches, in the API's returned order) with "ball"
excluded by the filter rules; in general, for any active term the
displayed list is a block of promoted exact/prefix username matches
followed by the filtered remainder, each block preserving the API's
returned order (it is a sublist of the raw results). -/
theorem c5_search_result_order :
    dataList "al" [albert, aliceU, ballU] [] 0 "me" = [albert, aliceU] ∧
    ∀ (term : String) (results profiles : List UserProfile)
      (selCount : Nat) (uid : String), term ≠ "" →
      ∃ promoted remainder,
        dataList term results profiles selCount uid = promoted ++ remainder ∧
        promoted.Sublist results ∧ remainder.Sublist results ∧
        (∀ p ∈ promoted, isPromoted term p = true) ∧
        (∀ p ∈ remainder, isPromoted term p = false) := by
  constructor
  · decide
  · intro term results profiles selCount uid ht
    refine ⟨(filterProfilesMatchingTerm results term).filter
        (fun p => keepsProfile selCount uid p && isPromoted term p),
      (filterProfilesMatchingTerm results term).filter
        (fun p => keepsProfile selCount uid p && !isPromoted term p),
      ?_, ?_, ?_, ?_, ?_⟩
    · simp [dataList, ht]
    · exact List.Sublist.trans (List.filter_sublist _)
        (List.filter_sublist results)
    · exact List.Sublist.trans (List.filter_sublist _)
        (List.filter_sublist results)
    · intro p hp
      exact ((Bool.and_eq_true _ _).mp (List.mem_filter.mp hp).2).2
    · intro p hp
      have h2 := ((Bool.and_eq_true _ _).mp (List.mem_filter.mp hp).2).2
      simpa using h2

/-- Witness for C5: the general ordering statement instantiated at the
concrete example of the claim. -/
theorem c5_search_result_order_witness :
    ∃ promoted remainder,
      dataList "al" [albert, aliceU, ballU] [] 0 "me" =
        promoted ++ remainder ∧
      promoted.Sublist [albert, aliceU, ballU] ∧
      remainder.Sublist [albert, aliceU, ballU] ∧
      (∀ p ∈ promoted, isPromoted "al" p = true) ∧
      (∀ p ∈ remainder, isPromoted "al" p = false) :=
  c5_search_result_order.2 "al" [albert, aliceU, ballU] [] 0 "me"
    (by decide)

/-! ### C9 -/

theorem lookupSelected_cons (a : String × UserProfile)
    (l : List (String × UserProfile)) (k : String) :
    lookupSelected (a :: l) k =
      if (a.1 == k) = true then some a.2 else lookupSelected l k := by
  unfold lookupSelected
  by_cases h : (a.1 == k) = true
  · rw [@List.find?_cons_of_pos _ (fun e => e.1 == k) a l h, if_pos h]
    rfl
  · rw [@List.find?_cons_of_neg _ (fun e => e.1 == k) a l h, if_neg h]

theorem lookup_remove_ne (l : List (String × UserProfile)) (id k : String)
    (hk : k ≠ id) :
    lookupSelected (removeProfileFromList l id) k = lookupSelected l k := by
  unfold removeProfileFromList
  induction l with
  | nil => rfl
  | cons a l ih =>
    rw [List.filter_cons]
    by_cases ha : (a.1 != id) = true
    · rw [if_pos ha, lookupSelected_cons, lookupSelected_cons, ih]
    · have ha1 : a.1 = id := bne_eq_false_iff_eq.mp (by simpa using ha)
      have hak : ¬((a.1 == k) = true) := by
        simp [ha1]
        exact fun h => hk h.symm
      rw [if_neg ha, lookupSelected_cons, if_neg hak, ih]

theorem lookup_remove_self (l : List (String × UserProfile)) (id : String) :
    lookupSelected (removeProfileFromList l id) id = none := by
  unfold lookupSelected removeProfileFromList
  rw [Option.map_eq_none']
  rw [List.find?_eq_none]
  intro x hx
  have hkeep := (List.mem_filter.mp hx).2
  simp only [bne_iff_ne, ne_eq] at hkeep
  simp [hkeep]

theorem length_remove_lt (l : List (String × UserProfile)) (id : String)
    (a : String × UserProfile)
    (hf : l.find? (fun e => e.1 == id) = some a) :
    (removeProfileFromList l id).length < l.length := by
  unfold removeProfileFromList
  apply List.length_filter_lt_length_iff_exists.mpr
  refine ⟨a, List.mem_of_find?_eq_some hf, ?_⟩
  have ha := List.find?_some hf
  simp only [bne_iff_ne, ne_eq, decide_not, Bool.not_eq_true, decide_eq_false_iff_not,
    Decidable.not_not]
  exact beq_iff_eq.mp ha

theorem lookup_append_of_none (l₁ l₂ : List (String × UserProfile))
    (k : String) (h : lookupSelected l₁ k = none) :
    lookupSelected (l₁ ++ l₂) k = lookupSelected l₂ k := by
  unfold lookupSelected at *
  rw [List.find?_append, Option.map_eq_none'.mp h]
  rfl

theorem lookup_append_single_ne (l : List (String × UserProfile))
    (id k : String) (u : UserProfile) (hk : k ≠ id) :
    lookupSelected (l ++ [(id, u)]) k = lookupSelected l k := by
  unfold lookupSelected
  rw [List.find?_append]
  have hsingle : List.find? (fun e => e.1 == k) [(id, u)] = none := by
    simp
    exact fun h => hk h.symm
  rw [hsingle, Option.or_none]

theorem toggleSelection_twice_lookup (cfg : Config) (u : UserProfile)
    (l : List (String × UserProfile))
    (hlen : l.length ≤ cfg.maxSelectedUsers)
    (hv : lookupSelected l u.id = none ∨ lookupSelected l u.id = some u)
    (k : String) :
    lookupSelected (toggleSelection cfg u (toggleSelection cfg u l).1).1 k =
      lookupSelected l k := by
  rcases hv with hv | hv
  · by_cases hc : l.length ≥ cfg.maxSelectedUsers
    · have h1 : toggleSelection cfg u l = (l, true) :=
        toggleSelection_rejected cfg u hv hc
      simp [h1]
    · have h1 : toggleSelection cfg u l = (l ++ [(u.id, u)], false) := by
        unfold toggleSelection
        rw [hv, if_neg hc]
      have hfind : (l ++ [(u.id, u)]).find? (fun e => e.1 == u.id) =
          some (u.id, u) := by
        rw [List.find?_append]
        have h0 : l.find? (fun e => e.1 == u.id) = none :=
          Option.map_eq_none'.mp hv
        rw [h0]
        simp
      have hsel : lookupSelected (l ++ [(u.id, u)]) u.id = some u := by
        unfold lookupSelected
        rw [hfind]
        rfl
      have h2 : toggleSelection cfg u (l ++ [(u.id, u)]) =
          (removeProfileFromList (l ++ [(u.id, u)]) u.id, false) := by
        unfold toggleSelection
        rw [hsel]
      have hrm : removeProfileFromList (l ++ [(u.id, u)]) u.id =
          removeProfileFromList l u.id := by
        unfold removeProfileFromList
        rw [List.filter_append]
        simp
      simp only [h1, h2, hrm]
      by_cases hk : k = u.id
      · subst hk
        rw [lookup_remove_self, hv]
      · rw [lookup_remove_ne l u.id k hk]
  · obtain ⟨a, hfa, ha2⟩ := Option.map_eq_some'.mp hv
    have h1 : toggleSelection cfg u l =
        (removeProfileFromList l u.id, false) := by
      unfold toggleSelection
      rw [hv]
    have hlt : (removeProfileFromList l u.id).length < l.length :=
      length_remove_lt l u.id a hfa
    have hnone2 : lookupSelected (removeProfileFromList l u.id) u.id = none :=
      lookup_remove_self l u.id
    have h2 : toggleSelection cfg u (removeProfileFromList l u.id) =
        (removeProfileFromList l u.id ++ [(u.id, u)], false) := by
      unfold toggleSelection
      rw [hnone2, if_neg (by omega)]
    simp only [h1, h2]
    by_cases hk : k = u.id
    · subst hk
      rw [lookup_append_of_none _ _ _ hnone2]
      have : lookupSelected [(u.id, u)] u.id = some u := by
        unfold lookupSelected
        simp
      rw [this, hv]
    · rw [lookup_append_single_ne _ _ _ _ hk, lookup_remove_ne l u.id k hk]

/-- C9 counterexample: with the id "u1" selected but mapped to profile
`pOld`, toggling the profile `pNew` (same id, different username) twice
removes the entry and re-adds it as `pNew`, so the selection does not
return to its original state. -/
theorem c9_toggle_twice_cex :
    lookupSelected sSelOld.selectedIds "u1" = some pOld ∧
    lookupSelected ((handleSelectProfileM cfgW pNew
        (handleSelectProfileM cfgW pNew sSelOld)).selectedIds) "u1" =
      some pNew ∧
    pNew ≠ pOld := by decide

/-- C9 (amended): for every selection set within the size cap and every
user whose id is either not selected or stored with that same profile
value, toggling the user twice in succession returns the selection set to
its original state as a map — every id looks up to the same profile as
before (insertion order aside); when the stored profile value differs
from the toggled one, the second toggle re-inserts the toggled profile
instead of the original. -/
theorem c9_toggle_involution (cfg : Config) (u : UserProfile)
    (s : ScreenState) (hlen : selectedCount s ≤ cfg.maxSelectedUsers)
    (hv : lookupSelected s.selectedIds u.id = none ∨
      lookupSelected s.selectedIds u.id = some u) :
    ∀ id, lookupSelected ((handleSelectProfileM cfg u
        (handleSelectProfileM cfg u s)).selectedIds) id =
      lookupSelected s.selectedIds id := by
  intro id
  rw [handleSelect_selectedIds, handleSelect_selectedIds]
  exact toggleSelection_twice_lookup cfg u s.selectedIds hlen hv id

/-- Witness for C9 (amended): toggling the selected `uA` twice leaves the
lookup of every probed id unchanged. -/
theorem c9_toggle_involution_witness :
    lookupSelected ((handleSelectProfileM cfgW uA
        (handleSelectProfileM cfgW uA sSelA)).selectedIds) "ua" =
      lookupSelected sSelA.selectedIds "ua" :=
  c9_toggle_involution cfgW uA sSelA (by decide) (by decide) "ua"
